import Mathlib

/-!
Shallow embedding of the satip-satellite-finder program (Python) in Lean 4,
together with theorems settling the frozen claims about its specification.

Python strings are modelled as `List Char`; Python `bytes` as `List ℕ`
(each element a byte value); fallible Python code (code that can raise)
returns `Except String _`.  Python semantics that the source relies on
(`str.split`, `str.replace`, `str.strip`, `int(...)`, `float(...)`,
`bytes.decode`, IEEE-754 binary64 arithmetic) are embedded by executable
definitions below, each written structurally so that concrete inputs
evaluate inside the kernel.
-/

deriving instance DecidableEq for Except

namespace SatFinder

/-- Python `str.split(sep)` for a one-character separator: splits on every
occurrence, keeping empty fields; the empty string yields one empty field. -/
def splitChar (sep : Char) (s : List Char) : List (List Char) :=
  s.foldr
    (fun c acc =>
      match acc with
      | g :: rest => if c = sep then [] :: g :: rest else (c :: g) :: rest
      | [] => [[c]])
    [[]]

/-- Characters Python `str.strip()` removes: space, tab, LF, VT, FF, CR. -/
def isPySpace (c : Char) : Bool :=
  c = ' ' ∨ c = Char.ofNat 9 ∨ c = Char.ofNat 10 ∨ c = Char.ofNat 11 ∨
    c = Char.ofNat 12 ∨ c = Char.ofNat 13

/-- Python `str.strip()`: drop leading and trailing whitespace. -/
def pyStrip (s : List Char) : List Char :=
  ((s.dropWhile isPySpace).reverse.dropWhile isPySpace).reverse

/-- Python `str.rstrip(chr(0))`: drop trailing NUL characters. -/
def rstripNull (s : List Char) : List Char :=
  (s.reverse.dropWhile (· = Char.ofNat 0)).reverse

/-- Test whether `pat` is an initial segment of `s` (Python `str.startswith`). -/
def isPre (pat s : List Char) : Bool :=
  s.take pat.length = pat

/-- Python `str.replace(pat, rep)` for nonempty `pat`: replace every
non-overlapping occurrence, scanning left to right. -/
def pyReplaceGo (pat rep : List Char) : ℕ → List Char → List Char
  | 0, s => s
  | _ + 1, [] => []
  | fuel + 1, c :: rest =>
      if isPre pat (c :: rest) then
        rep ++ pyReplaceGo pat rep fuel ((c :: rest).drop pat.length)
      else
        c :: pyReplaceGo pat rep fuel rest

/-- Python `str.replace(pat, rep)` (top level, fuel instantiated). -/
def pyReplace (pat rep s : List Char) : List Char :=
  pyReplaceGo pat rep s.length s

/-- Python `str.lower()` (ASCII is all the program ever lowercases). -/
def pyLower (s : List Char) : List Char :=
  s.map Char.toLower

/-- Numeric value of a list of decimal digit characters. -/
def digitsVal (s : List Char) : ℕ :=
  s.foldl (fun a c => a * 10 + (c.toNat - 48)) 0

/-- Python `int(str)`: optional surrounding whitespace, optional sign, then
one or more decimal digits; anything else raises `ValueError`.
(Digit-group underscores and non-decimal bases are not used by the program
and are not modelled.) -/
def pyInt (s : List Char) : Except String ℤ :=
  let t := pyStrip s
  let signed : ℤ × List Char :=
    match t with
    | '-' :: rest => (-1, rest)
    | '+' :: rest => (1, rest)
    | _ => (1, t)
  if signed.2 ≠ [] ∧ signed.2.all Char.isDigit then
    .ok (signed.1 * digitsVal signed.2)
  else
    .error "invalid literal for int with base 10"

/-- Python float value, restricted to the terminating decimals the program
works with: the value is `num / 10 ^ scale`.  Python floats are binary64,
but every float the program compares or prints originates from a decimal
literal or a decimal substring and is only ever compared for equality or
printed back with `repr`; for those operations the shortest-decimal view is
exact, so the decimal pair is a faithful model on the program domain. -/
structure PyFloat where
  num : ℤ
  scale : ℕ
  deriving DecidableEq, Repr

/-- Python `==` on two floats compares real values: cross-multiply. -/
def pyFloatEq (a b : PyFloat) : Bool :=
  a.num * (10 : ℤ) ^ b.scale = b.num * (10 : ℤ) ^ a.scale

/-- Python `float(str)`: optional whitespace and sign, then decimal digits
with an optional fractional part (`"12"`, `"12.5"`, `".5"`, `"5."`).
Exponent, infinity and NaN forms never occur in the program and are not
modelled. -/
def pyFloat (s : List Char) : Except String PyFloat :=
  let t := pyStrip s
  let signed : ℤ × List Char :=
    match t with
    | '-' :: rest => (-1, rest)
    | '+' :: rest => (1, rest)
    | _ => (1, t)
  match splitChar '.' signed.2 with
  | [a] =>
      if a ≠ [] ∧ a.all Char.isDigit then
        .ok ⟨signed.1 * digitsVal a, 0⟩
      else
        .error "could not convert string to float"
  | [a, b] =>
      if (a ≠ [] ∨ b ≠ []) ∧ a.all Char.isDigit ∧ b.all Char.isDigit then
        .ok ⟨signed.1 * digitsVal (a ++ b), b.length⟩
      else
        .error "could not convert string to float"
  | _ => .error "could not convert string to float"

/-- Python `int.from_bytes(bs, byteorder="big")`. -/
def intFromBytesBE (bs : List ℕ) : ℕ :=
  bs.foldl (fun a b => a * 256 + b) 0

/-- Python `bytes.decode("ascii")`: every byte must be below 128. -/
def decodeAscii (bs : List ℕ) : Except String String :=
  if bs.all (· < 128) then
    .ok (String.mk (bs.map Char.ofNat))
  else
    .error "ascii codec cannot decode byte"

/-- Worker for strict UTF-8 decoding, structurally recursive on fuel; one
unit of fuel is spent per decoded code point, so fuel `length + 1` always
suffices. -/
def decodeUtf8Go : ℕ → List ℕ → List Char → Except String (List Char)
  | 0, [], acc => .ok acc.reverse
  | 0, _ :: _, _ => .error "out of fuel"
  | _ + 1, [], acc => .ok acc.reverse
  | fuel + 1, b :: rest, acc =>
      if b < 128 then
        decodeUtf8Go fuel rest (Char.ofNat b :: acc)
      else if b < 194 then
        .error "utf-8 codec cannot decode byte: invalid start byte"
      else if b < 224 then
        match rest with
        | c1 :: rest2 =>
            if 128 ≤ c1 ∧ c1 < 192 then
              decodeUtf8Go fuel rest2 (Char.ofNat ((b - 192) * 64 + (c1 - 128)) :: acc)
            else
              .error "utf-8 codec cannot decode byte: invalid continuation byte"
        | [] => .error "utf-8 codec cannot decode byte: unexpected end of data"
      else if b < 240 then
        match rest with
        | c1 :: c2 :: rest2 =>
            let cp := (b - 224) * 4096 + (c1 - 128) * 64 + (c2 - 128)
            if 128 ≤ c1 ∧ c1 < 192 ∧ 128 ≤ c2 ∧ c2 < 192 ∧ 2048 ≤ cp ∧
                (cp < 55296 ∨ 57343 < cp) then
              decodeUtf8Go fuel rest2 (Char.ofNat cp :: acc)
            else
              .error "utf-8 codec cannot decode byte: invalid continuation byte"
        | _ => .error "utf-8 codec cannot decode byte: unexpected end of data"
      else if b < 245 then
        match rest with
        | c1 :: c2 :: c3 :: rest2 =>
            let cp := (b - 240) * 262144 + (c1 - 128) * 4096 + (c2 - 128) * 64 + (c3 - 128)
            if 128 ≤ c1 ∧ c1 < 192 ∧ 128 ≤ c2 ∧ c2 < 192 ∧ 128 ≤ c3 ∧ c3 < 192 ∧
                65536 ≤ cp ∧ cp ≤ 1114111 then
              decodeUtf8Go fuel rest2 (Char.ofNat cp :: acc)
            else
              .error "utf-8 codec cannot decode byte: invalid continuation byte"
        | _ => .error "utf-8 codec cannot decode byte: unexpected end of data"
      else
        .error "utf-8 codec cannot decode byte: invalid start byte"

/-- Python `bytes.decode("utf-8")` (strict), yielding the code points. -/
def decodeUtf8 (bs : List ℕ) : Except String (List Char) :=
  decodeUtf8Go (bs.length + 1) bs []

/-- Python equality between a `str` and an `int`: values of distinct types
with no cross-type equality never compare equal, so the result is always
`False`.  (The source compares `tuner_data[2] == 1` where `tuner_data[2]`
is a string.) -/
def pyEqStrInt (_s : List Char) (_n : ℤ) : Bool :=
  false

/-- ASCII byte encoding of a Lean string literal, used to write concrete
packet payloads. -/
def asciiBytes (s : String) : List ℕ :=
  s.data.map Char.toNat

/-- Embedding of `rtcp.RtcpPacketAppSatIp`: the SAT>IP APP RTCP packet.
Python assigns the attributes other than `name` only when the matching
`ver=` / `src=` / `tuner=` / `pids=` entry is present, so those attributes
are modelled as `Option` (unset = `none`). -/
structure RtcpPacketAppSatIp where
  name : String
  version : Option (List Char)
  source : Option ℤ
  frontend_id : Option ℤ
  signal_level : Option ℤ
  lock : Option Bool
  quality : Option ℤ
  frequency : Option PyFloat
  polarisation : Option (List Char)
  system : Option (List Char)
  type : Option (List Char)
  pilots : Option Bool
  roll_off : Option PyFloat
  symbol_rate : Option ℤ
  fec_inner : Option ℤ
  pids : Option (List ℤ)
  deriving DecidableEq, Repr

/-- One iteration of the `for entry in application_data.split(";")` loop in
`RtcpPacketAppSatIp.__init__`: an entry starting with a known key updates
the packet record (possibly raising), any other entry is skipped. -/
def processEntry (st : RtcpPacketAppSatIp) (entry : List Char) :
    Except String RtcpPacketAppSatIp :=
  if isPre "ver=".data entry then
    .ok { st with version := some (pyReplace "ver=".data [] entry) }
  else if isPre "src=".data entry then do
    let v ← pyInt (pyReplace "src=".data [] entry)
    .ok { st with source := some v }
  else if isPre "tuner=".data entry then
    let tuner_data :=
      splitChar ',' (pyStrip (pyReplace "tuner=".data [] entry))
    match tuner_data with
    | [t0, t1, t2, t3, t4, t5, t6, t7, t8, t9, t10, t11] => do
        let frontend_id ← pyInt t0
        let signal_level ← pyInt t1
        let lock := if pyEqStrInt t2 1 then true else false
        let quality ← pyInt t3
        let frequency ← pyFloat t4
        let pilots := if pyLower t8 = "on".data then true else false
        let roll_off ← pyFloat t9
        let symbol_rate ← pyInt t10
        let fec_inner ← pyInt t11
        if signal_level < 0 ∨ signal_level > 255 then
          .error "Invalid SatIp APP packet, expected signal_level=0-255"
        else if quality < 0 ∨ quality > 15 then
          .error "Invalid SatIp APP packet, expected quality=0-15"
        else
          .ok { st with
            frontend_id := some frontend_id
            signal_level := some signal_level
            lock := some lock
            quality := some quality
            frequency := some frequency
            polarisation := some t5
            system := some t6
            type := some t7
            pilots := some pilots
            roll_off := some roll_off
            symbol_rate := some symbol_rate
            fec_inner := some fec_inner }
    | _ => .error "Invalid SatIp APP packet, got tuner len != 12"
  else if isPre "pids=".data entry then do
    let ps ← (splitChar ',' (pyReplace "pids=".data [] entry)).mapM pyInt
    .ok { st with pids := some ps }
  else
    .ok st

/-- Embedding of `RtcpPacketAppSatIp.__init__(specific_data)`: decode the
name, identifier and string-length header fields, decode and NUL-trim the
application data, check the identifier and the declared length, then walk
the `;`-separated entries. -/
def rtcpPacketAppSatIpInit (specific_data : List ℕ) :
    Except String RtcpPacketAppSatIp :=
  match decodeAscii (specific_data.take 4) with
  | .error e => .error e
  | .ok name =>
    let identifier := intFromBytesBE ((specific_data.drop 4).take 2)
    let string_length := intFromBytesBE ((specific_data.drop 6).take 2)
    match decodeUtf8 (specific_data.drop 8) with
    | .error e => .error e
    | .ok decoded =>
      let application_data := rstripNull decoded
      if identifier ≠ 0 then
        .error "Invalid SatIp APP packet, expected identifier=0000"
      else if application_data.length ≠ string_length then
        .error "Invalid SatIp APP packet, unexpected len"
      else
        (splitChar ';' application_data).foldlM processEntry
      { name := name
        version := none
        source := none
        frontend_id := none
        signal_level := none
        lock := none
        quality := none
        frequency := none
        polarisation := none
        system := none
        type := none
        pilots := none
        roll_off := none
        symbol_rate := none
        fec_inner := none
        pids := none }

/-- Loop body of `get_first_rtcp_app_packet_from_rtcp_data`, structurally
recursive on fuel; every iteration advances the cursor by at least 4, so
fuel `length + 1` always suffices. -/
def getFirstAppGo (packet : List ℕ) : ℕ → ℕ → Except String (Option RtcpPacketAppSatIp)
  | 0, _ => .ok none
  | fuel + 1, index =>
      if index + 4 < packet.length then
        let packet_start := index
        let byte_0 := packet.getD index 0
        let version := (byte_0 &&& 192) >>> 6
        let reception_report_count := byte_0 &&& 31
        let packet_type := packet.getD (index + 1) 0
        let length := intFromBytesBE ((packet.drop (index + 2)).take 2) * 4 + 4
        if version ≠ 2 then
          .error "Invalid RTCP packet, expected version=2"
        else if (reception_report_count : ℤ) < 0 then
          .error "Invalid RTCP packet, expected reception_report_count >= 0"
        else if packet_start + length > packet.length then
          .error "Invalid RTCP packet, unexpected length"
        else
          let specific_data := (packet.drop (packet_start + 8)).take (length - 4)
          if packet_type ≠ 204 then
            getFirstAppGo packet fuel (packet_start + length)
          else do
            let pkt ← rtcpPacketAppSatIpInit specific_data
            .ok (some pkt)
      else
        .ok none

/-- Embedding of `rtcp.get_first_rtcp_app_packet_from_rtcp_data`: walk the
compound RTCP datagram and return the first APP (type 204) packet parsed,
`none` when the walk falls off the end without meeting one, or the raised
error. -/
def getFirstRtcpAppPacketFromRtcpData (packet : List ℕ) :
    Except String (Option RtcpPacketAppSatIp) :=
  getFirstAppGo packet (packet.length + 1) 0

/-- Drop factors of ten shared by the digits and the scale, so the decimal
is in shortest form; structurally recursive on fuel (`scale` suffices). -/
def dropTrailingZeros : ℕ → ℕ → ℕ → ℕ × ℕ
  | 0, n, k => (n, k)
  | fuel + 1, n, k =>
      if k > 0 ∧ n % 10 = 0 then dropTrailingZeros fuel (n / 10) (k - 1) else (n, k)

/-- Python `repr`/f-string rendering of a float: the shortest decimal string
that round-trips.  For a float whose value is a terminating decimal this is
the decimal itself with trailing fractional zeros removed, always keeping
one fractional digit (`22000.0`, `0.35`, `10714.25`). -/
def floatRepr (f : PyFloat) : String :=
  let nk := dropTrailingZeros f.scale f.num.natAbs f.scale
  let sign := if f.num < 0 then "-" else ""
  if nk.2 = 0 then
    sign ++ Nat.repr nk.1 ++ ".0"
  else
    let ds := Nat.repr nk.1
    let padded :=
      (if ds.length ≤ nk.2 then
        String.mk (List.replicate (nk.2 + 1 - ds.length) '0') ++ ds
      else ds).data
    sign ++ String.mk (padded.take (padded.length - nk.2)) ++ "." ++
      String.mk (padded.drop (padded.length - nk.2))

/-- Embedding of the `satip.SatIpChannel` dataclass.  `frequency` and
`rolloff` are Python floats, modelled as terminating decimals. -/
structure SatIpChannel where
  frontend : Option ℤ
  src : ℤ
  frequency : PyFloat
  symbol_rate : ℤ
  modulation_system : String
  modulation_type : String
  polarisation : String
  fec : ℤ
  rolloff : PyFloat
  pids : List ℤ
  display_name : Option String := none
  deriving DecidableEq, Repr

/-- Embedding of `SatIpChannel.__post_init__`: the dataclass validation,
raising `ValueError` on the first violated constraint, in source order. -/
def SatIpChannel.postInit (c : SatIpChannel) : Except String Unit :=
  if c.frontend.any (fun fe => decide (fe < 1 ∨ fe > 65535)) then
    .error "Invalid frontend"
  else if c.src < 1 ∨ c.src > 255 then
    .error "Invalid src"
  else if c.polarisation ∉ (["v", "h"] : List String) then
    .error "Invalid polarity"
  else if c.modulation_system ∉ (["dvbs", "dvbs2"] : List String) then
    .error "Invalid modulation_system"
  else if c.modulation_type ∉ (["qpsk", "8psk"] : List String) then
    .error "Invalid modulation_type"
  else if c.fec ∉ ([12, 23, 34, 56, 78, 89, 35, 45, 910] : List ℤ) then
    .error "Invalid fec"
  else if ¬ (([⟨20, 2⟩, ⟨25, 2⟩, ⟨35, 2⟩] : List PyFloat).any (pyFloatEq c.rolloff)) then
    .error "Invalid rolloff"
  else if c.pids.any (fun pid => pid < 0 ∨ pid > 8191) then
    .error "Invalid pid"
  else
    .ok ()

/-- Embedding of `SatIpChannel.to_stream_uri_params`: the stream URI query
string, with `&fe=` appended when `frontend` is not `None`. -/
def SatIpChannel.toStreamUriParams (c : SatIpChannel) : String :=
  let result :=
    "?src=" ++ toString c.src ++
    "&freq=" ++ floatRepr c.frequency ++
    "&sr=" ++ toString c.symbol_rate ++
    "&msys=" ++ c.modulation_system ++
    "&mtype=" ++ c.modulation_type ++
    "&pol=" ++ c.polarisation ++
    "&fec=" ++ toString c.fec ++
    "&ro=" ++ floatRepr c.rolloff ++
    "&pids=" ++ String.intercalate "," (c.pids.map toString)
  match c.frontend with
  | some fe => result ++ "&fe=" ++ toString fe
  | none => result

/-- Stated from the spec sentence, for refinement against the source
definition: the query is assembled in the fixed order
src, freq, sr, msys, mtype, pol, fec, ro, pids (comma-joined), and, only
if `frontend` is set, a trailing fe field. -/
def specStreamUriQuery (c : SatIpChannel) : String :=
  "?src=" ++ toString c.src ++
  "&freq=" ++ floatRepr c.frequency ++
  "&sr=" ++ toString c.symbol_rate ++
  "&msys=" ++ c.modulation_system ++
  "&mtype=" ++ c.modulation_type ++
  "&pol=" ++ c.polarisation ++
  "&fec=" ++ toString c.fec ++
  "&ro=" ++ floatRepr c.rolloff ++
  "&pids=" ++ String.intercalate "," (c.pids.map toString) ++
  (match c.frontend with
   | some fe => "&fe=" ++ toString fe
   | none => "")

/-- Embedding of the `Session` header handling in `RtspClient.setup_stream`
(rtsp.py): `session_id, timeout = headers["Session"].split(";")` followed by
`timeout = int(timeout.replace("timeout=", "")) or 60`.  The tuple
unpacking raises `ValueError` unless the split yields exactly two parts. -/
def setupParseSessionHeader (header : List Char) : Except String (String × ℤ) :=
  match splitChar ';' header with
  | [session_id, t] => do
      let n ← pyInt (pyReplace "timeout=".data [] t)
      .ok (String.mk session_id, if n = 0 then 60 else n)
  | _ => .error "cannot unpack Session header, expected 2 values"

/-- Observable step of the keep-alive thread in
`RtspClient._start_options_thread`. -/
inductive KeepAliveStep where
  | sleep (seconds : ℤ)
  | optionsRequest
  deriving DecidableEq, Repr

/-- Embedding of `thread_wrapper` in `RtspClient._start_options_thread`:
each loop iteration executes `time.sleep(timeout - 2)` and then sends one
OPTIONS request; the trace records `k` iterations of the loop (the loop
runs until the running flag is cleared). -/
def optionsThreadTrace (timeout : ℤ) : ℕ → List KeepAliveStep
  | 0 => []
  | k + 1 => .sleep (timeout - 2) :: .optionsRequest :: optionsThreadTrace timeout k

/-- One statement of `RtpConnection.close` in rtp.py (log calls omitted). -/
inductive RtpCloseStep where
  | setStopFlag
  | writeWakeupPipe
  | closeRtpSocket
  | closeRtcpSocket
  | joinReceiverThread
  deriving DecidableEq, Repr

/-- Embedding of the statement order of `RtpConnection.close`: set the stop
event, write one byte to the wakeup pipe, close the RTP socket, close the
RTCP socket, join the receiver thread. -/
def rtpConnectionCloseSteps : List RtpCloseStep :=
  [.setStopFlag, .writeWakeupPipe, .closeRtpSocket, .closeRtcpSocket, .joinReceiverThread]

/-- Events of one `RtpConnection` lifetime, as seen by an external
observer: a registered sink callback being invoked by the receiver thread,
the receiver thread exiting, `Thread.join` returning inside `close`, and
`close` itself returning. -/
inductive ConnEvent where
  | sinkCallback
  | receiverExit
  | joinReturn
  | closeReturn
  deriving DecidableEq, Repr

/-- Well-formedness of an interleaving of one connection lifetime,
expressing the threading semantics the code relies on: every sink callback
is executed by the receiver thread and therefore precedes the thread's
exit; `Thread.join` returns only after the joined thread has exited; and
`close` returns only after its `join` call has returned (`join` is the
last statement of `close`). -/
def ConnTraceWF (tr : List ConnEvent) : Prop :=
  (∀ i < tr.length, ∀ j < tr.length,
      tr[i]? = some ConnEvent.sinkCallback → tr[j]? = some ConnEvent.receiverExit → i < j) ∧
  (∀ k < tr.length, tr[k]? = some ConnEvent.joinReturn →
      ∃ j, j < k ∧ tr[j]? = some ConnEvent.receiverExit) ∧
  (∀ l < tr.length, tr[l]? = some ConnEvent.closeReturn →
      ∃ k, k < l ∧ tr[k]? = some ConnEvent.joinReturn)

instance (tr : List ConnEvent) : Decidable (ConnTraceWF tr) := by
  unfold ConnTraceWF
  exact @instDecidableAnd _ _ inferInstance (@instDecidableAnd _ _ inferInstance inferInstance)

/-- Resource owned by the orchestrator in main.py, tagged with the session
index it belongs to (the display is global). -/
inductive Res where
  | display
  | rtspClient (i : ℕ)
  | rtspStream (i : ℕ)
  | rtpConn (i : ℕ)
  deriving DecidableEq, Repr

/-- Embedding of `main.close_everything`: attempt `display.close()` when a
display is passed, then `teardown()` on every present stream, then
`close()` on every present RTP connection, then `close()` on every present
RTSP client, each list iterated front to back and each attempt wrapped in
`contextlib.suppress(Exception)`.  The `outcome` oracle says whether an
attempt raises; because of the suppression the sequence of attempts never
depends on it, which the trace makes visible by recording the pair. -/
def closeEverythingAttempts (display : Bool)
    (rtsp_clients rtsp_streams rtp_connections : List (Option ℕ))
    (outcome : Res → Bool) : List (Res × Bool) :=
  (if display then [(Res.display, outcome Res.display)] else []) ++
  rtsp_streams.filterMap (fun s => s.map (fun i => (Res.rtspStream i, outcome (Res.rtspStream i)))) ++
  rtp_connections.filterMap (fun r => r.map (fun i => (Res.rtpConn i, outcome (Res.rtpConn i)))) ++
  rtsp_clients.filterMap (fun c => c.map (fun i => (Res.rtspClient i, outcome (Res.rtspClient i))))

/-- Embedding of `signal_handler` in `main.main` for a run whose `for` loop
completed `n` sessions (each session appended one client, one stream and
one RTP connection): the handler calls `display.close()` first, WITHOUT
any suppression — if that call raises, the handler aborts and
`close_everything` never runs, so the display attempt is the only one;
otherwise `close_everything` is called with no display and the three full
lists. -/
def signalHandlerAttempts (n : ℕ) (outcome : Res → Bool) : List (Res × Bool) :=
  if outcome Res.display then
    [(Res.display, true)]
  else
    (Res.display, false) ::
      closeEverythingAttempts false ((List.range n).map some) ((List.range n).map some)
        ((List.range n).map some) outcome

/-- Construction order of the orchestrator's resources in `main.main`: the
display is created before the session loop; each loop iteration then
constructs the session's RTSP client, stream and RTP connection in that
order. -/
def mainConstructionOrder (n : ℕ) : List Res :=
  Res.display :: (List.range n).flatMap
    (fun i => [Res.rtspClient i, Res.rtspStream i, Res.rtpConn i])

/-- Number of binary digits of a natural number (`0` has none); the fuel
bound of 128 covers every quantity the embedded arithmetic produces. -/
def bitLenGo : ℕ → ℕ → ℕ
  | 0, _ => 0
  | fuel + 1, n => if n = 0 then 0 else bitLenGo fuel (n / 2) + 1

/-- Top-level bit length. -/
def bitLen (n : ℕ) : ℕ :=
  bitLenGo 128 n

/-- Decide `b * 2 ^ e ≤ a` for a possibly negative exponent. -/
def mulPow2Le (b : ℕ) (e : ℤ) (a : ℕ) : Bool :=
  if e ≥ 0 then b * 2 ^ e.toNat ≤ a else b ≤ a * 2 ^ (-e).toNat

/-- Round `a / b` to the nearest integer, ties to even. -/
def roundHalfEvenDiv (a b : ℕ) : ℕ :=
  let q := a / b
  let r := a % b
  if 2 * r > b ∨ (2 * r = b ∧ q % 2 = 1) then q + 1 else q

/-- IEEE-754 binary64 value of the exact ratio `a / b` (`a, b > 0`), as a
pair `(m, f)` denoting `m * 2 ^ f`: the exponent `e` with
`2 ^ e ≤ a / b < 2 ^ (e + 1)` is located exactly, and the significand is
rounded to 53 bits with ties to even.  Overflow and subnormals cannot occur
for the magnitudes the program computes and are not modelled. -/
def doubleOfRatNat (a b : ℕ) : ℕ × ℤ :=
  let e0 : ℤ := (bitLen a : ℤ) - bitLen b
  let e : ℤ := if mulPow2Le b e0 a then e0 else e0 - 1
  let s : ℤ := 52 - e
  let m := if s ≥ 0 then roundHalfEvenDiv (a * 2 ^ s.toNat) b
           else roundHalfEvenDiv a (b * 2 ^ (-s).toNat)
  (m, e - 52)

/-- Floor of the nonnegative dyadic `m * 2 ^ f` (Python `int()` truncation
toward zero agrees with the floor on nonnegative values). -/
def floorDyadic (m : ℕ) (f : ℤ) : ℕ :=
  if f ≥ 0 then m * 2 ^ f.toNat else m / 2 ^ (-f).toNat

/-- Embedding of `int((x / d) * 100)` on Python ints `x >= 0`, `d > 0`
(main.py `show_signal_and_quality`): `x / d` is true division producing the
correctly rounded binary64 of the exact ratio, `* 100` rounds the exact
product back to binary64, and `int()` truncates. -/
def pyPctOfRatio (x d : ℕ) : ℕ :=
  if x = 0 then 0
  else
    let md := doubleOfRatNat x d
    let num := md.1 * 100
    let second :=
      if md.2 ≥ 0 then doubleOfRatNat (num * 2 ^ md.2.toNat) 1
      else doubleOfRatNat num (2 ^ (-md.2).toNat)
    floorDyadic second.1 second.2

/-- Signal-level percentage computed by `show_signal_and_quality`:
`int((app_packet.signal_level / 255) * 100)`. -/
def showSignalLevelPct (signal_level : ℕ) : ℕ :=
  pyPctOfRatio signal_level 255

/-- Quality percentage computed by `show_signal_and_quality`:
`int((app_packet.quality / 15) * 100)`. -/
def showQualityPct (quality : ℕ) : ℕ :=
  pyPctOfRatio quality 15

/-- Stated from the claim's validity hypothesis about compound RTCP
datagrams: starting at `index`, every packet header (8 bytes) has version 2
and a declared length `(N*4)+4` that stays within the buffer, and the
packets exactly tile the buffer. -/
def specHeadersOkGo (packet : List ℕ) : ℕ → ℕ → Bool
  | 0, _ => false
  | fuel + 1, index =>
      if index = packet.length then true
      else if index + 8 ≤ packet.length then
        let b0 := packet.getD index 0
        let len := intFromBytesBE ((packet.drop (index + 2)).take 2) * 4 + 4
        decide (b0 >>> 6 = 2) && decide (8 ≤ len) && decide (index + len ≤ packet.length) &&
          specHeadersOkGo packet fuel (index + len)
      else false

/-- Validity of a whole datagram per the claim's hypothesis. -/
def specValidCompoundRtcp (packet : List ℕ) : Bool :=
  specHeadersOkGo packet (packet.length + 1) 0

/-- Stated from the spec's walk description: the payload of the first APP
(type 204) packet, which begins at the packet's offset 8 and has length
`full_size - 8`. -/
def specFirstAppGo (packet : List ℕ) : ℕ → ℕ → Option (List ℕ)
  | 0, _ => none
  | fuel + 1, index =>
      if index + 8 ≤ packet.length then
        let len := intFromBytesBE ((packet.drop (index + 2)).take 2) * 4 + 4
        if index + len > packet.length then none
        else if packet.getD (index + 1) 0 = 204 then
          some ((packet.drop (index + 8)).take (len - 8))
        else specFirstAppGo packet fuel (index + len)
      else none

/-- Top-level spec-side first-APP-payload extraction. -/
def specFirstAppPayload (packet : List ℕ) : Option (List ℕ) :=
  specFirstAppGo packet (packet.length + 1) 0

/-- A minimal well-formed APP packet payload: name `SES1`, identifier 0,
declared string length 0, empty application data. -/
def c1AppPayload : List ℕ :=
  asciiBytes "SES1" ++ [0, 0, 0, 0]

/-- A valid compound RTCP datagram in which the APP packet (16 bytes,
declared length field 3) is followed by a second packet (8 bytes, type
201): every header has version 2 and every declared length stays within
the buffer. -/
def c1FailingDatagram : List ℕ :=
  [128, 204, 0, 3] ++ [0, 0, 0, 0] ++ c1AppPayload ++ [128, 201, 0, 1, 0, 0, 0, 0]

/-- The channel of spec example S4. -/
def s4Channel : SatIpChannel :=
  { frontend := some 2, src := 1, frequency := ⟨1071425, 2⟩, symbol_rate := 22000,
    modulation_system := "dvbs", modulation_type := "qpsk", polarisation := "h",
    fec := 56, rolloff := ⟨35, 2⟩, pids := [0, 1] }

/-- A channel combining `modulation_system = dvbs` with
`modulation_type = 8psk`, every other field in range. -/
def dvbsWith8pskChannel : SatIpChannel :=
  { frontend := none, src := 1, frequency := ⟨1071425, 2⟩, symbol_rate := 22000,
    modulation_system := "dvbs", modulation_type := "8psk", polarisation := "h",
    fec := 56, rolloff := ⟨35, 2⟩, pids := [0] }

/-- Application data whose `tuner=` entry carries lock field `1`
(signal locked), as in the repository's own test vector. -/
def c4TunerAppData : String :=
  "tuner=1,115,1,13,10714,h,dvbs,qpsk,off,0.35,22000,56"

/-- APP packet payload around `c4TunerAppData`: name, identifier 0,
declared length, data (no padding needed for the length check). -/
def c4Payload : List ℕ :=
  asciiBytes "SES1" ++ [0, 0] ++ [0, c4TunerAppData.length] ++ asciiBytes c4TunerAppData

/-- APP packet payload whose application data contains none of the known
`ver=` / `src=` / `tuner=` / `pids=` entries. -/
def c10Payload : List ℕ :=
  asciiBytes "SES1" ++ [0, 0] ++ [0, 5] ++ asciiBytes "hello"

/-- One concrete well-formed connection lifetime interleaving. -/
def connTraceExample : List ConnEvent :=
  [.sinkCallback, .receiverExit, .joinReturn, .closeReturn]

/-- C1: the walker of `get_first_rtcp_app_packet_from_rtcp_data` slices the
APP packet's specific data as `packet[start+8 : start+8+length-4]`, four
bytes past the packet's end.  On `c1FailingDatagram` — a valid compound
datagram (every header has version 2, every declared length stays within
the buffer) whose first packet is an APP packet followed by a second
packet — the claim expects the parse of the APP payload (which succeeds),
but the code's slice drags in the next packet's header and the call
raises, so the claim fails on the code. -/
theorem rtcp_walker_slice_overrun :
    specValidCompoundRtcp c1FailingDatagram = true ∧
    specFirstAppPayload c1FailingDatagram = some c1AppPayload ∧
    (rtcpPacketAppSatIpInit c1AppPayload).isOk = true ∧
    (getFirstRtcpAppPacketFromRtcpData c1FailingDatagram).isOk = false := by
  refine ⟨by decide, by decide, by decide, by decide⟩

/-- C2: `SatIpChannel.__post_init__` never checks the combination
`modulation_system = dvbs` with `modulation_type = 8psk`, although the
field's own docstring says dvbs admits only qpsk; construction of such a
channel succeeds where the claim requires an `InvalidArgument` failure. -/
theorem channel_validation_accepts_dvbs_with_8psk :
    dvbsWith8pskChannel.modulation_system = "dvbs" ∧
    dvbsWith8pskChannel.modulation_type = "8psk" ∧
    dvbsWith8pskChannel.postInit = Except.ok () := by
  refine ⟨by decide, by decide, by decide⟩

/-- C4: in the `tuner=` entry the lock component is the third comma field;
the source compares that string against the integer 1
(`tuner_data[2] == 1`), which in Python is always false, so the parsed
packet reports `lock = false` even when the field is the string 1. -/
theorem tuner_lock_field_one_parses_false :
    (splitChar ',' (pyStrip (pyReplace "tuner=".data [] c4TunerAppData.data)))[2]? =
      some ['1'] ∧
    (rtcpPacketAppSatIpInit c4Payload).toOption.map (fun p => p.lock) =
      some (some false) := by
  refine ⟨by decide, by decide⟩

/-- C5 counterexample: for a `Session` header with no `;timeout=` part the
claim expects the fallback `(id, 60)`, but the tuple unpacking of
`split(";")` raises, so the call fails instead of returning. -/
theorem session_header_missing_timeout_errors :
    (setupParseSessionHeader "abcd1234".data).isOk = false := by
  decide

/-- C5 amended: splitting at the semicolon yields the session id and the
timeout, the parsed timeout falls back to 60 exactly when it parses to
zero, and a header with no semicolon raises (no fallback for the missing
case).  Checked for every timeout value below 100, covering both spec
examples. -/
theorem session_header_parse :
    (∀ n : ℕ, n < 100 →
      setupParseSessionHeader ("abcd1234;timeout=" ++ Nat.repr n).data =
        Except.ok ("abcd1234", if n = 0 then (60 : ℤ) else (n : ℤ))) ∧
    (setupParseSessionHeader "abcd1234".data).isOk = false := by
  refine ⟨by decide, by decide⟩

/-- C5 witness: the first spec example, via `session_header_parse`. -/
theorem session_header_parse_witness :
    (30 : ℕ) < 100 ∧
    setupParseSessionHeader ("abcd1234;timeout=" ++ Nat.repr 30).data =
      Except.ok ("abcd1234", if (30 : ℕ) = 0 then (60 : ℤ) else ((30 : ℕ) : ℤ)) :=
  ⟨by decide, session_header_parse.1 30 (by decide)⟩

/-- C6 counterexample: at `session_timeout = 2` the keep-alive loop sleeps
`timeout - 2 = 0` seconds, not the claimed `max(1, timeout - 2) = 1`. -/
theorem keepalive_interval_not_clamped :
    optionsThreadTrace 2 1 = [KeepAliveStep.sleep 0, KeepAliveStep.optionsRequest] ∧
    (0 : ℤ) ≠ max 1 (2 - 2) := by
  refine ⟨by decide, by decide⟩

/-- C6 amended: every wait of the keep-alive loop lasts exactly
`session_timeout - 2` seconds; there is no lower clamp, so for
`session_timeout ≤ 2` the sleep duration is zero or negative. -/
theorem keepalive_sleep_duration (t : ℤ) (k : ℕ) (d : ℤ)
    (h : KeepAliveStep.sleep d ∈ optionsThreadTrace t k) : d = t - 2 := by
  induction k with
  | zero => simp [optionsThreadTrace] at h
  | succ k ih =>
      simp only [optionsThreadTrace, List.mem_cons] at h
      rcases h with h | h | h
      · exact (KeepAliveStep.sleep.injEq d (t - 2)).mp h
      · cases h
      · exact ih h

/-- C6 witness: the sleep of a 60-second session via
`keepalive_sleep_duration`. -/
theorem keepalive_sleep_duration_witness :
    KeepAliveStep.sleep 58 ∈ optionsThreadTrace 60 1 ∧ (58 : ℤ) = 60 - 2 :=
  ⟨by decide, keepalive_sleep_duration 60 1 58 (by decide)⟩

/-- C7 counterexample: in `RtpConnection.close` the receiver thread join is
NOT before the socket closes — the RTP socket is closed at index 2 and the
join happens at index 4, refuting the claimed join-then-close order. -/
theorem rtp_close_sockets_before_join :
    ¬ (rtpConnectionCloseSteps.indexOf RtpCloseStep.joinReceiverThread <
        rtpConnectionCloseSteps.indexOf RtpCloseStep.closeRtpSocket) := by
  decide

/-- C8 counterexample: with two completed sessions the teardown sequence is
display, stream 0, stream 1, conn 0, conn 1, client 0, client 1 — not the
display followed by the reverse of the construction order, and session 0's
stream is torn down strictly before session 1's, so the last-constructed
session is not torn down first under any reading. -/
theorem teardown_not_reverse_construction :
    ((signalHandlerAttempts 2 (fun _ => false)).map Prod.fst ≠
      Res.display ::
        ((List.range 2).flatMap
          (fun i => [Res.rtspClient i, Res.rtspStream i, Res.rtpConn i])).reverse) ∧
    (((signalHandlerAttempts 2 (fun _ => false)).map Prod.fst).indexOf (Res.rtspStream 0) <
      ((signalHandlerAttempts 2 (fun _ => false)).map Prod.fst).indexOf (Res.rtspStream 1)) := by
  refine ⟨by decide, by decide⟩

/-- C3: for every channel passing validation the stream URI query equals
the spec's fixed-order assembly (with the fe field appended exactly when
`frontend` is set), and the S4 example serializes to the exact string the
spec gives. -/
theorem stream_uri_query_fixed_order :
    (∀ c : SatIpChannel, (SatIpChannel.postInit c).isOk = true →
      c.toStreamUriParams = specStreamUriQuery c) ∧
    s4Channel.toStreamUriParams =
      "?src=1&freq=10714.25&sr=22000&msys=dvbs&mtype=qpsk&pol=h&fec=56&ro=0.35&pids=0,1&fe=2" := by
  constructor
  · intro c _
    cases h : c.frontend <;>
      simp [SatIpChannel.toStreamUriParams, specStreamUriQuery, h, String.append_assoc]
  · decide

/-- C3 witness: the S4 channel is valid and its query equals the
spec-order assembly, via `stream_uri_query_fixed_order`. -/
theorem stream_uri_query_fixed_order_witness :
    (SatIpChannel.postInit s4Channel).isOk = true ∧
    s4Channel.toStreamUriParams = specStreamUriQuery s4Channel :=
  ⟨by decide, stream_uri_query_fixed_order.1 s4Channel (by decide)⟩

/-- C7 amended: `RtpConnection.close` sets the stop flag, writes the
wakeup byte, closes the two sockets and joins the receiver thread last (so
the socket closes precede the join, not the other way around); because the
join is the final statement before `close` returns, in every well-formed
lifetime interleaving no sink callback occurs after `close` returns. -/
theorem rtp_close_join_last_no_callback_after_close :
    (rtpConnectionCloseSteps.getLast? = some RtpCloseStep.joinReceiverThread ∧
      rtpConnectionCloseSteps.indexOf RtpCloseStep.setStopFlag <
        rtpConnectionCloseSteps.indexOf RtpCloseStep.writeWakeupPipe ∧
      rtpConnectionCloseSteps.indexOf RtpCloseStep.writeWakeupPipe <
        rtpConnectionCloseSteps.indexOf RtpCloseStep.closeRtpSocket ∧
      rtpConnectionCloseSteps.indexOf RtpCloseStep.closeRtpSocket <
        rtpConnectionCloseSteps.indexOf RtpCloseStep.closeRtcpSocket ∧
      rtpConnectionCloseSteps.indexOf RtpCloseStep.closeRtcpSocket <
        rtpConnectionCloseSteps.indexOf RtpCloseStep.joinReceiverThread) ∧
    (∀ tr : List ConnEvent, ConnTraceWF tr →
      ∀ i < tr.length, ∀ l < tr.length,
        tr[i]? = some ConnEvent.sinkCallback → tr[l]? = some ConnEvent.closeReturn →
          i < l) := by
  constructor
  · exact ⟨by decide, by decide, by decide, by decide, by decide⟩
  · intro tr hwf i hi l hl hcb hcr
    obtain ⟨h1, h2, h3⟩ := hwf
    obtain ⟨k, hkl, hk⟩ := h3 l hl hcr
    obtain ⟨j, hjk, hj⟩ := h2 k (lt_trans hkl hl) hk
    exact lt_trans (lt_trans (h1 i hi j (lt_trans hjk (lt_trans hkl hl)) hcb hj) hjk) hkl

/-- C7 witness: a concrete well-formed lifetime, via
`rtp_close_join_last_no_callback_after_close`. -/
theorem rtp_close_join_last_witness :
    ConnTraceWF connTraceExample ∧ (0 : ℕ) < 3 :=
  ⟨by decide,
    rtp_close_join_last_no_callback_after_close.2 connTraceExample (by decide)
      0 (by decide) 3 (by decide) (by decide) (by decide)⟩

/-- C8 amended: on a termination signal the handler closes the display
first, unsuppressed — if that close raises, the handler aborts and no
session resource is torn down at all; when the display close succeeds,
every stream is torn down in construction (forward) order, then every RTP
connection, then every RTSP client, each resource attempted exactly once
regardless of which of those suppressed teardowns fail. -/
theorem teardown_forward_order_exactly_once (n : ℕ) (outcome : Res → Bool) :
    (outcome Res.display = true →
      signalHandlerAttempts n outcome = [(Res.display, true)]) ∧
    (outcome Res.display = false →
      (signalHandlerAttempts n outcome).map Prod.fst =
        Res.display ::
          (((List.range n).map Res.rtspStream) ++ ((List.range n).map Res.rtpConn) ++
            ((List.range n).map Res.rtspClient)) ∧
      ((signalHandlerAttempts n outcome).map Prod.fst).Nodup) := by
  refine ⟨fun hd => by simp [signalHandlerAttempts, hd], fun hd => ?_⟩
  have hmain : (signalHandlerAttempts n outcome).map Prod.fst =
      Res.display ::
        (((List.range n).map Res.rtspStream) ++ ((List.range n).map Res.rtpConn) ++
          ((List.range n).map Res.rtspClient)) := by
    simp [signalHandlerAttempts, closeEverythingAttempts, hd, List.map_append,
      List.append_assoc]
    rfl
  refine ⟨hmain, ?_⟩
  rw [hmain]
  have hinj : ∀ f : ℕ → Res, Function.Injective f → ((List.range n).map f).Nodup :=
    fun f hf => (List.nodup_range n).map hf
  refine List.nodup_cons.mpr ⟨?_, ?_⟩
  · simp
  · refine (List.nodup_append.mpr ⟨(List.nodup_append.mpr
      ⟨hinj _ (fun a b h => by simpa using h), hinj _ (fun a b h => by simpa using h), ?_⟩),
      hinj _ (fun a b h => by simpa using h), ?_⟩)
    · intro x hx hy
      simp only [List.mem_map, List.mem_range] at hx hy
      obtain ⟨i, _, rfl⟩ := hx
      obtain ⟨j, _, hj⟩ := hy
      exact Res.noConfusion hj
    · intro x hx hy
      simp only [List.mem_append, List.mem_map, List.mem_range] at hx hy
      rcases hx with ⟨i, _, rfl⟩ | ⟨i, _, rfl⟩ <;>
        · obtain ⟨j, _, hj⟩ := hy
          exact Res.noConfusion hj

/-- C8 witness: the two-session instance with a succeeding display close,
via `teardown_forward_order_exactly_once`. -/
theorem teardown_forward_order_exactly_once_witness :
    (fun _ : Res => false) Res.display = false ∧
    ((signalHandlerAttempts 2 (fun _ => false)).map Prod.fst =
      Res.display ::
        (((List.range 2).map Res.rtspStream) ++ ((List.range 2).map Res.rtpConn) ++
          ((List.range 2).map Res.rtspClient)) ∧
    ((signalHandlerAttempts 2 (fun _ => false)).map Prod.fst).Nodup) :=
  ⟨rfl, (teardown_forward_order_exactly_once 2 (fun _ => false)).2 rfl⟩

set_option maxRecDepth 100000 in
set_option maxHeartbeats 1000000 in
/-- C9: for every in-range signal level and quality the percentages that
`show_signal_and_quality` computes with binary64 arithmetic and `int()`
truncation coincide with the exact floor formulas. -/
theorem signal_quality_pct_floor :
    (∀ s : ℕ, s ≤ 255 → showSignalLevelPct s = s * 100 / 255) ∧
    (∀ q : ℕ, q ≤ 15 → showQualityPct q = q * 100 / 15) := by
  exact ⟨by decide, by decide⟩

/-- C9 witness: the repository test vector values 115 and 13, via
`signal_quality_pct_floor`. -/
theorem signal_quality_pct_floor_witness :
    ((115 : ℕ) ≤ 255 ∧ showSignalLevelPct 115 = 115 * 100 / 255) ∧
    ((13 : ℕ) ≤ 15 ∧ showQualityPct 13 = 13 * 100 / 15) :=
  ⟨⟨by decide, signal_quality_pct_floor.1 115 (by decide)⟩,
   ⟨by decide, signal_quality_pct_floor.2 13 (by decide)⟩⟩

/-- An entry that carries none of the four known keys leaves the packet
record untouched. -/
theorem processEntry_skip (st : RtcpPacketAppSatIp) (e : List Char)
    (h1 : isPre "ver=".data e = false) (h2 : isPre "src=".data e = false)
    (h3 : isPre "tuner=".data e = false) (h4 : isPre "pids=".data e = false) :
    processEntry st e = .ok st := by
  simp [processEntry, h1, h2, h3, h4]

/-- Folding the entry loop over entries with no known keys returns the
initial record. -/
theorem foldlM_processEntry_skip (entries : List (List Char)) (st : RtcpPacketAppSatIp)
    (h : ∀ e ∈ entries,
      isPre "ver=".data e = false ∧ isPre "src=".data e = false ∧
      isPre "tuner=".data e = false ∧ isPre "pids=".data e = false) :
    entries.foldlM processEntry st = .ok st := by
  induction entries with
  | nil => rfl
  | cons e es ih =>
      obtain ⟨h1, h2, h3, h4⟩ := h e (List.mem_cons_self e es)
      rw [List.foldlM_cons, processEntry_skip st e h1 h2 h3 h4]
      exact ih fun x hx => h x (List.mem_cons_of_mem e hx)

/-- C10: an APP payload whose identifier bytes are zero and whose
NUL-trimmed application data matches the declared string length parses
successfully even when the data carries none of the `ver=` / `src=` /
`tuner=` / `pids=` entries; unknown entries are silently skipped and every
metric attribute stays unset. -/
theorem app_packet_unknown_entries_ignored (data : List ℕ) (nm : String) (s : List Char)
    (hname : decodeAscii (data.take 4) = .ok nm)
    (hid : intFromBytesBE ((data.drop 4).take 2) = 0)
    (hdec : decodeUtf8 (data.drop 8) = .ok s)
    (hlen : (rstripNull s).length = intFromBytesBE ((data.drop 6).take 2))
    (hkeys : ∀ e ∈ splitChar ';' (rstripNull s),
      isPre "ver=".data e = false ∧ isPre "src=".data e = false ∧
      isPre "tuner=".data e = false ∧ isPre "pids=".data e = false) :
    rtcpPacketAppSatIpInit data = .ok
      { name := nm, version := none, source := none, frontend_id := none,
        signal_level := none, lock := none, quality := none, frequency := none,
        polarisation := none, system := none, type := none, pilots := none,
        roll_off := none, symbol_rate := none, fec_inner := none, pids := none } := by
  unfold rtcpPacketAppSatIpInit
  rw [hname, hdec]
  simp only [hid, ← hlen, ne_eq, not_true_eq_false, ite_false, not_false_eq_true]
  exact foldlM_processEntry_skip _ _ hkeys

/-- C10 witness: the concrete payload `c10Payload` (data `hello`), via
`app_packet_unknown_entries_ignored`. -/
theorem app_packet_unknown_entries_ignored_witness :
    decodeAscii (c10Payload.take 4) = .ok "SES1" ∧
    intFromBytesBE ((c10Payload.drop 4).take 2) = 0 ∧
    decodeUtf8 (c10Payload.drop 8) = .ok "hello".data ∧
    (rstripNull "hello".data).length = intFromBytesBE ((c10Payload.drop 6).take 2) ∧
    rtcpPacketAppSatIpInit c10Payload = .ok
      { name := "SES1", version := none, source := none, frontend_id := none,
        signal_level := none, lock := none, quality := none, frequency := none,
        polarisation := none, system := none, type := none, pilots := none,
        roll_off := none, symbol_rate := none, fec_inner := none, pids := none } :=
  ⟨by decide, by decide, by decide, by decide,
    app_packet_unknown_entries_ignored c10Payload "SES1" "hello".data
      (by decide) (by decide) (by decide) (by decide) (by decide)⟩

end SatFinder
